import Mathlib

/-!
Verification of the financial computations in `src/app.py` of the
CarbonDashboard repository.

The script reads nine numeric widget inputs, defines `compute_payback_year`,
and derives carbon, savings, payback and ROI figures plus the waterfall value
list.  Python floats are modelled as rationals; a Python `ZeroDivisionError`
is modelled by the `PyResult.zeroDivisionError` constructor.
-/

/-- Result of a Python computation that may raise `ZeroDivisionError`. -/
inductive PyResult (α : Type) where
  | ok : α → PyResult α
  | zeroDivisionError : PyResult α
deriving DecidableEq

/-- The nine numeric inputs the script reads from its widgets
(app.py lines 47-61). -/
structure Params where
  energy_savings : ℚ
  electricity_rate : ℚ
  cooling_energy : ℚ
  carbon_emission_factor : ℚ
  roi_years : ℕ
  efficiency_pct : ℚ
  initial_investment : ℚ
  one_time_install : ℚ
  software_fee : ℚ
deriving DecidableEq

/-- Loop of `compute_payback_year` (app.py lines 6-10): `cumulative` is the
running sum accumulated so far, `i` the Python loop index, and the list
argument holds the remaining elements `cashflows[i:]`.  The code first sets
`prev = cumulative`, then adds `cashflows[i]`; when the new cumulative is
non-negative it returns `i - 1 + (-prev) / cashflows[i]`, which in Python
raises `ZeroDivisionError` when `cashflows[i]` is zero. -/
def paybackLoop (cumulative : ℚ) (i : ℕ) : List ℚ → PyResult (Option ℚ)
  | [] => PyResult.ok none
  | c :: rest =>
    if 0 ≤ cumulative + c then
      if c = 0 then PyResult.zeroDivisionError
      else PyResult.ok (some ((i : ℚ) - 1 + (-cumulative) / c))
    else paybackLoop (cumulative + c) (i + 1) rest

/-- app.py lines 4-11: `compute_payback_year` starts with `cumulative = 0` and
iterates over `range(1, len(cashflows))`, i.e. over `cashflows[1:]`; element 0
of the list is never read. -/
def compute_payback_year (cashflows : List ℚ) : PyResult (Option ℚ) :=
  paybackLoop 0 1 (cashflows.drop 1)

/-- app.py line 63: `carbon_reduction = energy_savings * carbon_emission_factor`
(kilograms; the tonne conversion happens only at display time). -/
def carbon_reduction (p : Params) : ℚ :=
  p.energy_savings * p.carbon_emission_factor

/-- app.py line 64: `annual_savings = energy_savings * electricity_rate`. -/
def annual_savings (p : Params) : ℚ :=
  p.energy_savings * p.electricity_rate

/-- app.py line 148: the summary card displays `carbon_reduction / 1000`
tonnes of CO2 per year. -/
def carbon_reduction_tonnes (p : Params) : ℚ :=
  carbon_reduction p / 1000

/-- app.py line 65: the numeric content of `payback_text`; `none` models the
branch that renders the words Not achievable, taken when `annual_savings` is
not positive.  (The 2-decimal string formatting is elided.) -/
def payback_text (p : Params) : Option ℚ :=
  if 0 < annual_savings p then some (p.initial_investment / annual_savings p)
  else none

/-- app.py line 73: the year-`i` value appended to the waterfall list:
`annual_savings - (software_fee if i >= 1 else 0)`. -/
def yearly_value (p : Params) (i : ℕ) : ℚ :=
  annual_savings p - (if 1 ≤ i then p.software_fee else 0)

/-- app.py lines 70-74: the waterfall `values` list before the final total is
appended: the entries `0` and `-initial_investment`, then one `yearly_value`
entry per year of the horizon. -/
def values (p : Params) : List ℚ :=
  [0, -p.initial_investment] ++ (List.range p.roi_years).map (yearly_value p)

/-- app.py line 76: `net_benefit = sum(values[2:])`. -/
def net_benefit (p : Params) : ℚ :=
  ((values p).drop 2).sum

/-- app.py line 135: `roi_percent = (net_benefit / initial_investment) * 100`;
Python raises `ZeroDivisionError` when `initial_investment` is zero. -/
def roi_percent (p : Params) : PyResult ℚ :=
  if p.initial_investment = 0 then PyResult.zeroDivisionError
  else PyResult.ok (net_benefit p / p.initial_investment * 100)

/-- Scan step of the payback description in section 4.4 of the spec: `prev` is
the cumulative net before the current index `i`, the list holds `net[i:]`;
the first index whose cumulative is non-negative yields
`i - 1 + (-prev) / net[i]`, and exhausting the list yields `none`. -/
def paybackSpecScan (prev : ℚ) (i : ℕ) : List ℚ → Option ℚ
  | [] => none
  | n :: rest =>
    if 0 ≤ prev + n then some ((i : ℚ) - 1 + (-prev) / n)
    else paybackSpecScan (prev + n) (i + 1) rest

/-- Payback exactly as claim C1 words it: the cumulative series starts with
`cumulative_net[0] = net[0]` and the scan runs from year 1 onward. -/
def paybackSpecC1 : List ℚ → Option ℚ
  | [] => none
  | n0 :: rest => paybackSpecScan n0 1 rest

/-- Amended description of the solver: the same scan, but the running
cumulative starts at `0` — element 0 of the list is never added. -/
def paybackSpecC1Amended (net : List ℚ) : Option ℚ :=
  paybackSpecScan 0 1 (net.drop 1)

/-- Net benefit as claim C4 words it: the sum over the whole schedule of
`net[i] = savings[i] - recurring_fee[i] - investment[i]`, with the year-0
investment `initial_investment + one_time_install` included. -/
def netBenefitSpecC4 (p : Params) : ℚ :=
  ((List.range p.roi_years).map (fun i =>
      yearly_value p i -
        (if i = 0 then p.initial_investment + p.one_time_install else 0))).sum

/-- Default widget values of app.py (Indonesia emission factor, 5-year ROI). -/
def pDefault : Params where
  energy_savings := 1040249
  electricity_rate := 0.14
  cooling_energy := 21900000
  carbon_emission_factor := 0.87
  roi_years := 5
  efficiency_pct := 0.05
  initial_investment := 88817
  one_time_install := 16000
  software_fee := 72817

/-- Default values with a zero initial investment (scenario C of the spec). -/
def pZeroInv : Params := { pDefault with initial_investment := 0 }

/-- Parameter set whose annual savings (100) are positive but below the
recurring fee (200), with initial investment 50. -/
def pC3 : Params :=
  { pDefault with energy_savings := 1000, electricity_rate := 1/10,
                  software_fee := 200, initial_investment := 50 }

/-- Default values with a zero electricity rate, so annual savings are zero. -/
def pZeroRate : Params := { pDefault with electricity_rate := 0 }

/-- Parameter set with savings 10 per year, no fee, investment 100, and a
3-year horizon. -/
def pC4 : Params :=
  { pDefault with energy_savings := 100, electricity_rate := 1/10,
                  software_fee := 0, initial_investment := 100,
                  one_time_install := 0, roi_years := 3 }

/-- Default values with different cooling energy and efficiency inputs. -/
def pC8 : Params := { pDefault with cooling_energy := 0, efficiency_pct := 1 }

/-- Once the running cumulative is strictly negative, the code loop and the
spec scan agree and no division by zero can occur: a crossing at index `i`
forces `cashflows[i] > 0`. -/
lemma paybackLoop_agrees (l : List ℚ) : ∀ (cum : ℚ) (i : ℕ), cum < 0 →
    paybackLoop cum i l = PyResult.ok (paybackSpecScan cum i l) := by
  induction l with
  | nil => intro cum i _; rfl
  | cons c rest ih =>
      intro cum i h
      by_cases hc : 0 ≤ cum + c
      · have hne : c ≠ 0 := by
          intro h0
          rw [h0, add_zero] at hc
          exact absurd h (not_lt.mpr hc)
        simp [paybackLoop, paybackSpecScan, hc, hne]
      · simp only [paybackLoop, paybackSpecScan, if_neg hc]
        exact ih (cum + c) (i + 1) (not_le.mp hc)

/-- Closed form of the sum of the per-year waterfall entries over an
`n`-year horizon, `n ≥ 1`: one fee-free year, then `n - 1` fee-bearing ones. -/
lemma sum_yearly (p : Params) : ∀ n : ℕ, 1 ≤ n →
    ((List.range n).map (yearly_value p)).sum
      = n * annual_savings p - ((n : ℚ) - 1) * p.software_fee := by
  intro n
  induction n with
  | zero => intro h; exact absurd h (by decide)
  | succ m ih =>
      intro _
      rcases Nat.eq_zero_or_pos m with hm | hm
      · subst hm
        norm_num [List.range_succ, yearly_value]
      · rw [List.range_succ, List.map_append, List.sum_append, ih hm]
        have hm1 : 1 ≤ m := hm
        have h1 : yearly_value p m = annual_savings p - p.software_fee := by
          unfold yearly_value
          rw [if_pos hm1]
        rw [show (List.map (yearly_value p) [m]).sum = yearly_value p m by simp, h1]
        push_cast
        ring

/-- C6: the derived metrics use the canonical formulas: annual savings equal
energy savings times the electricity rate, and the displayed carbon tonnes
equal energy savings times the emission factor divided by 1000; neither
formula involves the efficiency fraction or the cooling energy. -/
theorem c6_formulas (p : Params) :
    annual_savings p = p.energy_savings * p.electricity_rate ∧
    carbon_reduction_tonnes p
      = p.energy_savings * p.carbon_emission_factor / 1000 :=
  ⟨rfl, rfl⟩

/-- Unfolding equation for one step of the code loop. -/
lemma paybackLoop_cons (cum : ℚ) (i : ℕ) (c : ℚ) (rest : List ℚ) :
    paybackLoop cum i (c :: rest) =
      if 0 ≤ cum + c then
        (if c = 0 then PyResult.zeroDivisionError
         else PyResult.ok (some ((i : ℚ) - 1 + (-cum) / c)))
      else paybackLoop (cum + c) (i + 1) rest := rfl

/-- Unfolding equation for one step of the spec scan. -/
lemma paybackSpecScan_cons (prev : ℚ) (i : ℕ) (n : ℚ) (rest : List ℚ) :
    paybackSpecScan prev i (n :: rest) =
      if 0 ≤ prev + n then some ((i : ℚ) - 1 + (-prev) / n)
      else paybackSpecScan (prev + n) (i + 1) rest := rfl

/-- C1 counterexample: on the cash-flow list `[-100, 150]` the code returns
payback `0`, while the formula of the claim — cumulative series starting at
`cumulative_net[0] = net[0]` — yields `2/3`; so the claim misdescribes
`compute_payback_year`. -/
theorem c1_counterexample :
    compute_payback_year [(-100 : ℚ), 150] = PyResult.ok (some 0) ∧
    paybackSpecC1 [(-100 : ℚ), 150] = some (2/3) ∧
    some (0 : ℚ) ≠ some (2/3 : ℚ) := by
  refine ⟨?_, ?_, by norm_num⟩
  · show paybackLoop 0 1 [150] = PyResult.ok (some 0)
    rw [paybackLoop_cons, if_pos (by norm_num), if_neg (by norm_num)]
    norm_num
  · show paybackSpecScan (-100) 1 [150] = some (2/3)
    rw [paybackSpecScan_cons, if_pos (by norm_num)]
    norm_num

/-- C1 amended: `compute_payback_year` ignores element 0 of its input — the
running cumulative starts at `0`, not at `net[0]`.  Provided the list does not
have a zero at index 1 (the one division-by-zero case), it returns exactly the
spec scan started from a zero cumulative: the first index `i ≥ 1` whose running
sum of `net[1..i]` is non-negative yields `(i - 1) + (-prev / net[i])` with
`prev` the sum before index `i`, and if no index reaches a non-negative sum
the result is `none`, with no extrapolation beyond the schedule. -/
theorem c1_amended (cf : List ℚ) (h : cf.length ≤ 1 ∨ cf[1]? ≠ some 0) :
    compute_payback_year cf = PyResult.ok (paybackSpecC1Amended cf) := by
  match cf, h with
  | [], _ => rfl
  | [a], _ => rfl
  | a :: b :: t, h =>
      have hb : b ≠ 0 := by
        rcases h with h | h
        · simp at h
        · simpa using h
      show paybackLoop 0 1 (b :: t) = PyResult.ok (paybackSpecScan 0 1 (b :: t))
      rw [paybackLoop_cons, paybackSpecScan_cons, zero_add]
      by_cases hc : (0 : ℚ) ≤ b
      · rw [if_pos hc, if_pos hc, if_neg hb]
      · rw [if_neg hc, if_neg hc]
        exact paybackLoop_agrees t b 2 (not_le.mp hc)

/-- C1 witness: the amended statement evaluated on the counterexample list. -/
theorem c1_amended_witness :
    compute_payback_year [(-100 : ℚ), 150] =
      PyResult.ok (paybackSpecC1Amended [(-100 : ℚ), 150]) :=
  c1_amended [(-100 : ℚ), 150] (Or.inr (by norm_num))

/-- C9: the solver never reads element 0 of its input: replacing the head
leaves the result unchanged; a list whose element at index 1 is positive gets
payback exactly `0` whatever its head is; and a list of length at most 1
yields `none`. -/
theorem c9_ignores_head :
    (∀ (x y : ℚ) (t : List ℚ),
       compute_payback_year (x :: t) = compute_payback_year (y :: t)) ∧
    (∀ (x b : ℚ) (t : List ℚ), 0 < b →
       compute_payback_year (x :: b :: t) = PyResult.ok (some 0)) ∧
    (∀ l : List ℚ, l.length ≤ 1 → compute_payback_year l = PyResult.ok none) := by
  refine ⟨fun x y t => rfl, fun x b t hb => ?_, fun l hl => ?_⟩
  · show paybackLoop 0 1 (b :: t) = PyResult.ok (some 0)
    rw [paybackLoop_cons, zero_add, if_pos (le_of_lt hb), if_neg hb.ne']
    norm_num
  · match l, hl with
    | [], _ => rfl
    | [a], _ => rfl
    | a :: b :: t, h => simp at h

/-- C9 witness: heads are interchangeable; a positive element at index 1
forces payback `0` even under a large negative head; a singleton yields
`none`. -/
theorem c9_ignores_head_witness :
    compute_payback_year [(-5 : ℚ), 3] = compute_payback_year [(7 : ℚ), 3] ∧
    compute_payback_year [(-1000000 : ℚ), 5, 7] = PyResult.ok (some 0) ∧
    compute_payback_year [(3 : ℚ)] = PyResult.ok none :=
  ⟨c9_ignores_head.1 (-5) 7 [3],
   c9_ignores_head.2.1 (-1000000) 5 [7] (by norm_num),
   c9_ignores_head.2.2 [(3 : ℚ)] (by simp)⟩

/-- C10 counterexample: on `[-100, 0]` the solver reaches index 1 with
`prev = 0` and `cumulative = 0 ≥ 0` and evaluates `(-0) / 0`, a Python
`ZeroDivisionError`; the function is not total. -/
theorem c10_counterexample :
    compute_payback_year [(-100 : ℚ), 0] = PyResult.zeroDivisionError := by
  show paybackLoop 0 1 [0] = PyResult.zeroDivisionError
  rw [paybackLoop_cons, if_pos (by norm_num), if_pos rfl]

/-- C10 amended: the solver raises a division by zero exactly when the input
has at least two elements and the element at index 1 is zero; on every other
input it returns a value (a payback or `none`) without raising. -/
theorem c10_amended (l : List ℚ) :
    compute_payback_year l = PyResult.zeroDivisionError ↔
      (∃ x t, l = x :: 0 :: t) := by
  match l with
  | [] => simp [compute_payback_year, paybackLoop]
  | [a] =>
      constructor
      · intro herr
        exact absurd herr (by simp [compute_payback_year, paybackLoop])
      · rintro ⟨x, t2, heq⟩
        simp at heq
  | a :: b :: t =>
      show paybackLoop 0 1 (b :: t) = PyResult.zeroDivisionError ↔ _
      rw [paybackLoop_cons, zero_add]
      by_cases hb : b = 0
      · subst hb
        rw [if_pos (le_refl (0 : ℚ)), if_pos rfl]
        exact ⟨fun _ => ⟨a, t, rfl⟩, fun _ => rfl⟩
      · by_cases hc : (0 : ℚ) ≤ b
        · rw [if_pos hc, if_neg hb]
          constructor
          · intro herr
            simp at herr
          · rintro ⟨x, t2, heq⟩
            injection heq with h1 h2
            injection h2 with h3 h4
            exact absurd h3 hb
        · rw [if_neg hc, paybackLoop_agrees t b 2 (not_le.mp hc)]
          constructor
          · intro herr
            simp at herr
          · rintro ⟨x, t2, heq⟩
            injection heq with h1 h2
            injection h2 with h3 h4
            exact absurd h3 hb

/-- C10 witness: a zero at index 1 raises even though later years would pay
back. -/
theorem c10_amended_witness :
    compute_payback_year [(5 : ℚ), 0, 9] = PyResult.zeroDivisionError :=
  (c10_amended [(5 : ℚ), 0, 9]).mpr ⟨5, [9], rfl⟩

/-- C2 counterexample: with the default inputs but `initial_investment = 0`,
line 135 of app.py raises `ZeroDivisionError`; the ROI is not reported as a
`None` sentinel, contrary to the claim. -/
theorem c2_counterexample :
    pZeroInv.initial_investment = 0 ∧
    roi_percent pZeroInv = PyResult.zeroDivisionError := by
  constructor
  · rfl
  · unfold roi_percent
    rw [if_pos (show pZeroInv.initial_investment = 0 from rfl)]

/-- C2 amended: `roi_percent` equals `net_benefit / initial_investment * 100`
whenever the initial investment is positive, but when it is zero the
computation raises `ZeroDivisionError` instead of reporting a sentinel. -/
theorem c2_amended (p : Params) :
    (0 < p.initial_investment →
       roi_percent p = PyResult.ok (net_benefit p / p.initial_investment * 100)) ∧
    (p.initial_investment = 0 → roi_percent p = PyResult.zeroDivisionError) := by
  constructor
  · intro h
    unfold roi_percent
    rw [if_neg h.ne']
  · intro h
    unfold roi_percent
    rw [if_pos h]

/-- C2 witness: the amended statement at the default inputs and at the
zero-investment inputs. -/
theorem c2_amended_witness :
    roi_percent pDefault =
      PyResult.ok (net_benefit pDefault / pDefault.initial_investment * 100) ∧
    roi_percent pZeroInv = PyResult.zeroDivisionError :=
  ⟨(c2_amended pDefault).1 (by norm_num [pDefault]),
   (c2_amended pZeroInv).2 rfl⟩

/-- C3 counterexample: with annual savings `100`, recurring fee `200` and
investment `50`, the fee exceeds the savings, yet the code reports a finite
payback of `0.5` years rather than the not-achievable sentinel the claim
requires. -/
theorem c3_counterexample :
    0 < annual_savings pC3 ∧
    annual_savings pC3 ≤ pC3.software_fee ∧
    payback_text pC3 = some (1/2) ∧
    payback_text pC3 ≠ none := by
  have ha : annual_savings pC3 = 100 := by
    norm_num [annual_savings, pC3, pDefault]
  have hpb : payback_text pC3 = some (1/2) := by
    unfold payback_text
    rw [ha, if_pos (by norm_num)]
    norm_num [pC3, pDefault]
  refine ⟨by rw [ha]; norm_num, ?_, hpb, by rw [hpb]; simp⟩
  rw [ha, show pC3.software_fee = 200 from rfl]
  norm_num

/-- C3 amended: the closed-form payback equals
`initial_investment / annual_savings` whenever `annual_savings` is positive,
and the not-achievable sentinel is returned exactly when
`annual_savings ≤ 0`; the annual recurring fee plays no part in the
decision. -/
theorem c3_amended (p : Params) :
    (0 < annual_savings p →
       payback_text p = some (p.initial_investment / annual_savings p)) ∧
    (annual_savings p ≤ 0 → payback_text p = none) := by
  constructor
  · intro h
    unfold payback_text
    rw [if_pos h]
  · intro h
    unfold payback_text
    rw [if_neg (not_lt.mpr h)]

/-- C3 witness: the amended statement at concrete inputs with positive and
with zero annual savings. -/
theorem c3_amended_witness :
    payback_text pC3 = some (pC3.initial_investment / annual_savings pC3) ∧
    payback_text pZeroRate = none :=
  ⟨(c3_amended pC3).1 (by norm_num [annual_savings, pC3, pDefault]),
   (c3_amended pZeroRate).2 (by norm_num [annual_savings, pZeroRate, pDefault])⟩

/-- C4 counterexample: with annual savings 10, no fee, investment 100 and a
3-year horizon, the code reports `net_benefit = 30`, while the sum of all
per-year nets demanded by the claim — which subtracts the year-0
investment — is `-70`. -/
theorem c4_counterexample :
    net_benefit pC4 = 30 ∧ netBenefitSpecC4 pC4 = -70 ∧ (30 : ℚ) ≠ -70 := by
  refine ⟨?_, ?_, by norm_num⟩
  · show ((List.range 3).map (yearly_value pC4)).sum = 30
    norm_num [List.range_succ, yearly_value, annual_savings, pC4, pDefault]
  · unfold netBenefitSpecC4
    norm_num [List.range_succ, yearly_value, annual_savings, pC4, pDefault]

/-- C4 amended: `net_benefit` sums only the per-year entries `values[2:]`,
giving horizon times annual savings minus (horizon - 1) recurring fees; the
year-0 investment is not subtracted from the reported net benefit. -/
theorem c4_amended (p : Params) (h : 1 ≤ p.roi_years) :
    net_benefit p
      = (p.roi_years : ℚ) * annual_savings p
        - ((p.roi_years : ℚ) - 1) * p.software_fee := by
  show ((List.range p.roi_years).map (yearly_value p)).sum = _
  exact sum_yearly p p.roi_years h

/-- C4 witness: the amended statement at the default inputs. -/
theorem c4_amended_witness :
    1 ≤ pDefault.roi_years ∧
    net_benefit pDefault
      = (pDefault.roi_years : ℚ) * annual_savings pDefault
        - ((pDefault.roi_years : ℚ) - 1) * pDefault.software_fee :=
  ⟨by decide, c4_amended pDefault (by decide)⟩

/-- Cons form of the waterfall list. -/
lemma values_eq (p : Params) :
    values p
      = 0 :: -p.initial_investment
          :: (List.range p.roi_years).map (yearly_value p) := rfl

/-- C5 counterexample: with the default inputs (investment 88817, one-time
installation 16000) the year-0 investment entry of the schedule is `-88817`;
the one-time installation cost is not included, contrary to the claim. -/
theorem c5_counterexample :
    (values pDefault)[1]? = some ((-88817 : ℚ)) ∧
    (values pDefault)[1]? ≠
      some (-(pDefault.initial_investment + pDefault.one_time_install)) := by
  have h1 : (values pDefault)[1]? = some ((-88817 : ℚ)) := by
    rw [values_eq]
    simp [pDefault]
  refine ⟨h1, ?_⟩
  rw [h1]
  intro hcontra
  injection hcontra with h2
  norm_num [pDefault] at h2

/-- C5 amended: the year-0 investment entry of the waterfall equals the
negated `initial_investment` alone, and the one-time installation cost read at
line 60 of app.py is never used: changing it changes neither the schedule nor
the net benefit. -/
theorem c5_amended (p : Params) :
    (values p)[1]? = some (-p.initial_investment) ∧
    (∀ c : ℚ, values { p with one_time_install := c } = values p ∧
       net_benefit { p with one_time_install := c } = net_benefit p) :=
  ⟨by rw [values_eq]; simp, fun _ => ⟨rfl, rfl⟩⟩

/-- C7: the fee timing of the schedule: the year-0 entry is fee-free (its
value is the full annual savings) and every later year's entry equals annual
savings minus the recurring fee. -/
theorem c7_fee_timing (p : Params) :
    yearly_value p 0 = annual_savings p ∧
    (∀ i : ℕ, 1 ≤ i → yearly_value p i = annual_savings p - p.software_fee) ∧
    (1 ≤ p.roi_years → (values p)[2]? = some (annual_savings p)) ∧
    (∀ i : ℕ, 1 ≤ i → i < p.roi_years →
       (values p)[i + 2]? = some (annual_savings p - p.software_fee)) := by
  have hyv0 : yearly_value p 0 = annual_savings p := by
    unfold yearly_value
    norm_num
  have hyv : ∀ i : ℕ, 1 ≤ i → yearly_value p i = annual_savings p - p.software_fee := by
    intro i hi
    unfold yearly_value
    rw [if_pos hi]
  refine ⟨hyv0, hyv, ?_, ?_⟩
  · intro h
    rw [values_eq]
    simp only [List.getElem?_cons_succ, List.getElem?_cons_zero,
      List.getElem?_map, List.getElem?_range h]
    simp [hyv0]
  · intro i hi hlt
    rw [values_eq]
    simp only [List.getElem?_cons_succ, List.getElem?_cons_zero,
      List.getElem?_map, List.getElem?_range hlt]
    simp [hyv i hi]

/-- C7 witness: the fee-timing statement at the default inputs: the first
per-year entry and the second per-year entry of the waterfall list. -/
theorem c7_fee_timing_witness :
    (values pDefault)[2]? = some (annual_savings pDefault) ∧
    (values pDefault)[3]? = some (annual_savings pDefault - pDefault.software_fee) :=
  ⟨(c7_fee_timing pDefault).2.2.1 (by decide),
   (c7_fee_timing pDefault).2.2.2 1 (by decide) (by decide)⟩

/-- C8: noninterference of the unused inputs: two parameter sets that agree
everywhere except possibly on cooling energy and the efficiency fraction
produce identical values for every computed output of the script. -/
theorem c8_noninterference (p q : Params)
    (h1 : p.energy_savings = q.energy_savings)
    (h2 : p.electricity_rate = q.electricity_rate)
    (h3 : p.carbon_emission_factor = q.carbon_emission_factor)
    (h4 : p.roi_years = q.roi_years)
    (h5 : p.initial_investment = q.initial_investment)
    (h6 : p.one_time_install = q.one_time_install)
    (h7 : p.software_fee = q.software_fee) :
    annual_savings p = annual_savings q ∧
    carbon_reduction p = carbon_reduction q ∧
    carbon_reduction_tonnes p = carbon_reduction_tonnes q ∧
    payback_text p = payback_text q ∧
    values p = values q ∧
    net_benefit p = net_benefit q ∧
    roi_percent p = roi_percent q := by
  cases p
  cases q
  simp only at h1 h2 h3 h4 h5 h6 h7
  subst h1
  subst h2
  subst h3
  subst h4
  subst h5
  subst h6
  subst h7
  exact ⟨rfl, rfl, rfl, rfl, rfl, rfl, rfl⟩

/-- C8 witness: the default inputs and the same inputs with different cooling
energy and efficiency give identical outputs throughout. -/
theorem c8_noninterference_witness :
    annual_savings pDefault = annual_savings pC8 ∧
    carbon_reduction pDefault = carbon_reduction pC8 ∧
    carbon_reduction_tonnes pDefault = carbon_reduction_tonnes pC8 ∧
    payback_text pDefault = payback_text pC8 ∧
    values pDefault = values pC8 ∧
    net_benefit pDefault = net_benefit pC8 ∧
    roi_percent pDefault = roi_percent pC8 :=
  c8_noninterference pDefault pC8 rfl rfl rfl rfl rfl rfl rfl
